import Mathlib

/-!
# The location cache of `server.js`

A shallow embedding of the `/location` route of `server.js`: the `Location`
constructor, `Location.lookupLocation`, `Location.prototype.save`,
`getLocation` with its `cacheHit` / `cacheMiss` callbacks, and `handleError`.

The promise chains are run to completion in the order the source chains them.
One request is a transformer of the request state `Sys`: the database, the
response sent so far (if any), the list of geocode requests issued, and the
promise rejections nobody handled.  Everything outside the file (PostgreSQL
behind `client.query`, the geocode service behind `superagent.get`, the clock,
the environment variables) is collected in `Env`.  Console output is not
modelled.
-/

namespace Lab07

/-! ## Values -/

/-- A JavaScript number on the location path, kept as the decimal literal
`mantissa / 10 ^ scale`.  The code never computes with a coordinate, it only
moves it from the provider reply to the record and the insert statement. -/
structure Num where
  mantissa : Int
  scale : Nat
deriving DecidableEq, Repr

/-- The errors a promise of the location path can reject with. -/
inductive JsError where
  /-- The `TypeError: Cannot read property ... of undefined`. -/
  | typeError
  /-- A rejection of `client.query`. -/
  | storeError
  /-- A rejection of `superagent.get`. -/
  | httpError
deriving DecidableEq, Repr

/-- One entry of `res.body.results`; `lat` and `lng` are
`geometry.location.lat` and `geometry.location.lng`. -/
structure Candidate where
  formatted_address : String
  lat : Num
  lng : Num
deriving DecidableEq, Repr

/-- The resolved value of `superagent.get(url)`; `results` is
`res.body.results`. -/
structure GeoResponse where
  results : List Candidate
deriving DecidableEq, Repr

/-- The object built by `new Location(query, res)` (lines 36-43); `id` is
absent until `save` assigns it. -/
structure Location where
  tableName : String
  search_query : String
  formatted_query : String
  latitude : Num
  longitude : Num
  created_at : Nat
  id : Option Nat
deriving DecidableEq, Repr

/-! ## The database -/

/-- Modelled from the spec: the declaration of the `locations` table is not in
the source.  A row carries the store-assigned identifier read at line 68 and
the four columns named by the insert statement of line 63, kept as inserted. -/
structure Row where
  id : Nat
  search_query : String
  formatted_query : String
  latitude : Num
  longitude : Num
deriving DecidableEq, Repr

/-- The database behind `client`.  `uniqueKey` is the part of the missing
table declaration that decides what `ON CONFLICT DO NOTHING` does: whether
`search_query` carries a uniqueness constraint.  It is a parameter of the
state, the spec assumes it is `true`. -/
structure Store where
  uniqueKey : Bool
  rows : List Row
  nextId : Nat
deriving DecidableEq, Repr

/-- The `result` a `client.query` promise resolves with. -/
structure QueryResult where
  rows : List Row
  rowCount : Nat
deriving DecidableEq, Repr

/-- The two statements the location path sends, with their bound values. -/
inductive Stmt where
  /-- Line 45: `SELECT * FROM locations WHERE search_query=$1;`. -/
  | selectBySearchQuery (q : String)
  /-- Line 63: `INSERT INTO locations (search_query, formatted_query, latitude,
  longitude) VALUES ($1, $2, $3, $4) ON CONFLICT DO NOTHING`. -/
  | insertLocation (search_query formatted_query : String) (latitude longitude : Num)
deriving DecidableEq, Repr

/-! ## The environment of one request -/

/-- What one request meets outside the file: the environment variable of line
129, the clock of line 42, whether the store read or the store write is
rejected, and the geocode service as a function of the requested URL. -/
structure Env where
  GEOCODE_API_KEY : String
  now : Nat
  readFails : Bool
  writeFails : Bool
  geocode : String → Except JsError GeoResponse

/-- The request; `data` is `request.query.data`. -/
structure Request where
  data : String
deriving DecidableEq, Repr

/-- What `response.send` was given. -/
inductive Body where
  | row (r : Row)
  | location (l : Location)
  | text (s : String)
  | undefined
deriving DecidableEq, Repr

/-- A response that was sent: the status code and the body. -/
structure Response where
  status : Nat
  body : Body
deriving DecidableEq, Repr

/-- The state of one request while its promise chains run. -/
structure Sys where
  store : Store
  response : Option Response
  providerCalls : List String
  unhandled : List JsError
deriving DecidableEq, Repr

/-- The state a request starts from. -/
def Sys.init (db : Store) : Sys :=
  { store := db, response := none, providerCalls := [], unhandled := [] }

/-- The handler object `getLocation` passes to `Location.lookupLocation`
(lines 120-139).  Its `tableName` field is `Location.tableName`, which is
`undefined` and never read; it is left out. -/
structure Handler where
  query : String
  cacheHit : QueryResult → Sys → Sys
  cacheMiss : Sys → Sys

/-! ## The code -/

/-- The rows `SELECT * FROM locations WHERE search_query=$1` returns. -/
def selectRows (db : Store) (q : String) : List Row :=
  db.rows.filter (fun r => decide (r.search_query = q))

/-- The call `client.query(SQL, values)`: the database afterwards and what the promise
settles with.  The select returns the matching rows and their count.  The
insert has no `RETURNING` clause, so its result has no rows; it is skipped
when the uniqueness constraint exists and the key is already present. -/
def clientQuery (env : Env) (db : Store) : Stmt → Store × Except JsError QueryResult
  | .selectBySearchQuery q =>
    if env.readFails then (db, .error .storeError)
    else (db, .ok { rows := selectRows db q, rowCount := (selectRows db q).length })
  | .insertLocation sq fq lat lng =>
    if env.writeFails then (db, .error .storeError)
    else if db.uniqueKey && db.rows.any (fun r => decide (r.search_query = sq)) then
      (db, .ok { rows := [], rowCount := 0 })
    else
      ({ db with
          rows := db.rows ++ [{ id := db.nextId, search_query := sq, formatted_query := fq,
                                latitude := lat, longitude := lng }],
          nextId := db.nextId + 1 },
       .ok { rows := [], rowCount := 1 })

/-- The constructor call `new Location(query, res)` (lines 36-43): reading a property of
`res.body.results[0]` throws when the list is empty. -/
def Location.new (query : String) (res : GeoResponse) (now : Nat) : Except JsError Location :=
  match res.results.head? with
  | none => .error .typeError
  | some first =>
    .ok { tableName := "locations",
          search_query := query,
          formatted_query := first.formatted_address,
          latitude := first.lat,
          longitude := first.lng,
          created_at := now,
          id := none }

/-- The method `Location.prototype.save` (lines 61-71): the database afterwards and what
the returned promise settles with.  `result.rows[0].id` throws when
`result.rows` is empty. -/
def Location.save (env : Env) (db : Store) (self : Location) : Store × Except JsError Location :=
  match clientQuery env db
      (.insertLocation self.search_query self.formatted_query self.latitude self.longitude) with
  | (db', .error e) => (db', .error e)
  | (db', .ok result) =>
    match result.rows.head? with
    | none => (db', .error .typeError)
    | some r => (db', .ok { self with id := some r.id })

/-- The function `handleError(err, res)` (lines 210-213); `res` is `none` when the caller
passes no second argument. -/
def handleError (_err : JsError) (res : Option Unit) (s : Sys) : Sys :=
  match res with
  | some _ => { s with response := some { status := 500, body := .text "Sorry, something went wrong" } }
  | none => s

/-- The `cacheHit` callback of `getLocation` (lines 124-127). -/
def cacheHit (result : QueryResult) (s : Sys) : Sys :=
  match result.rows.head? with
  | some r => { s with response := some { status := 200, body := .row r } }
  | none => { s with response := some { status := 200, body := .undefined } }

/-- The URL of line 129. -/
def geocodeUrl (env : Env) (query : String) : String :=
  "https://maps.googleapis.com/maps/api/geocode/json?address=" ++ query ++ "&key="
    ++ env.GEOCODE_API_KEY

/-- The `cacheMiss` callback of `getLocation` (lines 128-138).  The promise of
`location.save()` is not returned from the `then` callback, so its rejection
does not reach the `catch` of line 137. -/
def cacheMiss (env : Env) (query : String) (s : Sys) : Sys :=
  let url := geocodeUrl env query
  let s1 := { s with providerCalls := s.providerCalls ++ [url] }
  match env.geocode url with
  | .error e => handleError e none s1
  | .ok res =>
    match Location.new query res env.now with
    | .error e => handleError e none s1
    | .ok location =>
      match Location.save env s1.store location with
      | (db', .ok saved) =>
        { s1 with store := db', response := some { status := 200, body := .location saved } }
      | (db', .error e) => { s1 with store := db', unhandled := s1.unhandled ++ [e] }

/-- The function `Location.lookupLocation` (lines 44-59); a rejected read is only logged. -/
def Location.lookupLocation (env : Env) (location : Handler) (s : Sys) : Sys :=
  match clientQuery env s.store (.selectBySearchQuery location.query) with
  | (db', .ok result) =>
    if result.rowCount > 0 then location.cacheHit result { s with store := db' }
    else location.cacheMiss { s with store := db' }
  | (db', .error _) => { s with store := db' }

/-- The handler `getLocation(request, response)` (lines 119-140), run to completion on the
database `db`. -/
def getLocation (env : Env) (db : Store) (request : Request) : Sys :=
  Location.lookupLocation env
    { query := request.data, cacheHit := cacheHit, cacheMiss := cacheMiss env request.data }
    (Sys.init db)

/-- Two requests one after the other, the second on the database the first
one left. -/
def getLocationTwice (env1 env2 : Env) (db : Store) (request : Request) : Sys × Sys :=
  let first := getLocation env1 db request
  (first, getLocation env2 first.store request)

/-! ## Predicates of the claims -/

/-- The store holds a record for the key `q`. -/
def Store.hasKey (db : Store) (q : String) : Prop :=
  ∃ r ∈ db.rows, r.search_query = q

/-- At most one stored record per distinct `search_query`. -/
def Store.UniqueKeys (db : Store) : Prop :=
  (db.rows.map (fun r => r.search_query)).Nodup

instance (db : Store) (q : String) : Decidable (db.hasKey q) := by
  unfold Store.hasKey; infer_instance

instance (db : Store) : Decidable db.UniqueKeys := by
  unfold Store.UniqueKeys; infer_instance

/-! ## Concrete inputs -/

/-- The geocode service of the scenario: one candidate for every request. -/
def amphitheatreGeocode : String → Except JsError GeoResponse :=
  fun _ => .ok { results := [{ formatted_address := "1600 Amphitheatre Pkwy, Mountain View, CA",
                               lat := { mantissa := 37422, scale := 3 },
                               lng := { mantissa := -122084, scale := 3 } }] }

/-- An environment where the store works and the geocode service answers. -/
def envOk : Env :=
  { GEOCODE_API_KEY := "k", now := 0, readFails := false, writeFails := false,
    geocode := amphitheatreGeocode }

/-- An environment where the store works and the geocode request is rejected. -/
def envProviderDown : Env :=
  { GEOCODE_API_KEY := "k", now := 0, readFails := false, writeFails := false,
    geocode := fun _ => .error .httpError }

/-- An environment where the geocode service answers with no candidate. -/
def envNoCandidate : Env :=
  { GEOCODE_API_KEY := "k", now := 0, readFails := false, writeFails := false,
    geocode := fun _ => .ok { results := [] } }

/-- An environment where the store read is rejected. -/
def envReadDown : Env :=
  { GEOCODE_API_KEY := "k", now := 0, readFails := true, writeFails := false,
    geocode := amphitheatreGeocode }

/-- An environment where the store write is rejected. -/
def envWriteDown : Env :=
  { GEOCODE_API_KEY := "k", now := 0, readFails := false, writeFails := true,
    geocode := amphitheatreGeocode }

/-- The empty table with the uniqueness constraint. -/
def emptyStore : Store := { uniqueKey := true, rows := [], nextId := 1 }

/-- The row of the scenario. -/
def amphitheatreRow : Row :=
  { id := 1, search_query := "1600 Amphitheatre Parkway",
    formatted_query := "1600 Amphitheatre Pkwy, Mountain View, CA",
    latitude := { mantissa := 37422, scale := 3 },
    longitude := { mantissa := -122084, scale := 3 } }

/-- A table that already holds the row of the scenario. -/
def amphitheatreStore : Store := { uniqueKey := true, rows := [amphitheatreRow], nextId := 2 }

/-- The request of the scenario. -/
def amphitheatreRequest : Request := { data := "1600 Amphitheatre Parkway" }

/-- A record with the key of the scenario and other field values. -/
def otherLocation : Location :=
  { tableName := "locations", search_query := "1600 Amphitheatre Parkway",
    formatted_query := "Elsewhere", latitude := { mantissa := 1, scale := 0 },
    longitude := { mantissa := 2, scale := 0 }, created_at := 0, id := none }

/-! ## Lemmas on the database -/

theorem selectRows_eq_nil {db : Store} {q : String} (h : ¬ db.hasKey q) :
    selectRows db q = [] := by
  unfold selectRows
  rw [List.filter_eq_nil_iff]
  intro r hr
  simp only [decide_eq_true_eq]
  exact fun e => h ⟨r, hr, e⟩

theorem selectRows_ne_nil {db : Store} {q : String} (h : db.hasKey q) :
    selectRows db q ≠ [] := by
  obtain ⟨r, hr, e⟩ := h
  intro hnil
  have hmem : r ∈ selectRows db q := by
    unfold selectRows
    exact List.mem_filter.mpr ⟨hr, by simpa using e⟩
  rw [hnil] at hmem
  exact List.not_mem_nil r hmem

theorem selectRows_key {db : Store} {q : String} {r : Row} (h : r ∈ selectRows db q) :
    r.search_query = q := by
  unfold selectRows at h
  simpa using (List.mem_filter.mp h).2

theorem any_key_eq_false {db : Store} {q : String} (h : ¬ db.hasKey q) :
    db.rows.any (fun r => decide (r.search_query = q)) = false := by
  rw [Bool.eq_false_iff]
  intro hany
  rw [List.any_eq_true] at hany
  obtain ⟨r, hr, e⟩ := hany
  exact h ⟨r, hr, by simpa using e⟩

/-! ## Lemmas on the code paths -/

/-- The promise of `save` never resolves: the insert returns no row, and
`result.rows[0].id` throws. -/
theorem save_rejects (env : Env) (db : Store) (l : Location) :
    ∃ e, (Location.save env db l).2 = .error e := by
  unfold Location.save clientQuery
  dsimp only
  split_ifs <;> simp

/-- A rejected read ends the request with nothing done. -/
theorem getLocation_readFails {env : Env} (db : Store) (req : Request)
    (h : env.readFails = true) : getLocation env db req = Sys.init db := by
  simp [getLocation, Location.lookupLocation, clientQuery, h, Sys.init]

/-- A read that finds rows sends the first one. -/
theorem getLocation_hit {env : Env} {db : Store} {req : Request} {row : Row} {rest : List Row}
    (h : env.readFails = false) (hr : selectRows db req.data = row :: rest) :
    getLocation env db req
      = { Sys.init db with response := some { status := 200, body := .row row } } := by
  simp [getLocation, Location.lookupLocation, clientQuery, h, hr, cacheHit, Sys.init]

/-- A read that finds nothing runs `cacheMiss`. -/
theorem getLocation_miss {env : Env} {db : Store} {req : Request}
    (h : env.readFails = false) (hr : selectRows db req.data = []) :
    getLocation env db req = cacheMiss env req.data (Sys.init db) := by
  simp [getLocation, Location.lookupLocation, clientQuery, h, hr, Sys.init]

/-- The store `save` leaves: unchanged, or one more row with the record's key. -/
theorem save_store (env : Env) (db : Store) (l : Location) :
    (Location.save env db l).1 = db ∨
      (Location.save env db l).1
        = { db with
            rows := db.rows ++ [{ id := db.nextId, search_query := l.search_query,
                                  formatted_query := l.formatted_query,
                                  latitude := l.latitude, longitude := l.longitude }],
            nextId := db.nextId + 1 } := by
  unfold Location.save clientQuery
  dsimp only
  split_ifs <;> simp

/-- The callback `cacheMiss` issues exactly one geocode request. -/
theorem cacheMiss_providerCalls (env : Env) (q : String) (s : Sys) :
    (cacheMiss env q s).providerCalls = s.providerCalls ++ [geocodeUrl env q] := by
  unfold cacheMiss handleError
  dsimp only
  split
  · rfl
  · split
    · rfl
    · split <;> rfl

/-- The callback `cacheMiss` never sends a response. -/
theorem cacheMiss_response (env : Env) (q : String) (s : Sys) :
    (cacheMiss env q s).response = s.response := by
  unfold cacheMiss handleError
  dsimp only
  split
  · rfl
  · split
    · rfl
    · rename_i location _
      split
      · rename_i db1 saved hsave
        obtain ⟨e, he⟩ := save_rejects env s.store location
        rw [hsave] at he
        simp at he
      · rfl

/-- The store `cacheMiss` leaves: unchanged, or one more row with the key `q`. -/
theorem cacheMiss_store (env : Env) (q : String) (s : Sys) :
    (cacheMiss env q s).store = s.store ∨
      ∃ r : Row, r.search_query = q ∧
        (cacheMiss env q s).store
          = { s.store with rows := s.store.rows ++ [r], nextId := s.store.nextId + 1 } := by
  unfold cacheMiss handleError
  dsimp only
  split
  · exact Or.inl rfl
  · split
    · exact Or.inl rfl
    · rename_i res location hnew
      have hkey : location.search_query = q := by
        unfold Location.new at hnew
        split at hnew
        · simp at hnew
        · simp only [Except.ok.injEq] at hnew
          rw [← hnew]
      have hstore := save_store env s.store location
      split
      · rename_i db1 saved hsave
        rw [hsave] at hstore
        rcases hstore with h | h
        · exact Or.inl h
        · exact Or.inr ⟨_, hkey, h⟩
      · rename_i db1 e hsave
        rw [hsave] at hstore
        rcases hstore with h | h
        · exact Or.inl h
        · exact Or.inr ⟨_, hkey, h⟩

/-- On a database without the key, `save` under a working store appends the
record's row. -/
theorem save_store_fresh {env : Env} {db : Store} (l : Location)
    (hw : env.writeFails = false) (hk : ¬ db.hasKey l.search_query) :
    (Location.save env db l).1
      = { db with
          rows := db.rows ++ [{ id := db.nextId, search_query := l.search_query,
                                formatted_query := l.formatted_query,
                                latitude := l.latitude, longitude := l.longitude }],
          nextId := db.nextId + 1 } := by
  simp [Location.save, clientQuery, hw, any_key_eq_false hk]

/-- After a row with key `q` is appended to a database without that key, the
select for `q` returns exactly that row. -/
theorem selectRows_append_fresh {db : Store} {r : Row} (n : Nat)
    (hk : ¬ db.hasKey r.search_query) :
    selectRows { db with rows := db.rows ++ [r], nextId := n } r.search_query = [r] := by
  have h := selectRows_eq_nil hk
  unfold selectRows at h ⊢
  simp [List.filter_append, h]

/-- A miss on a database without the key, with a working store write and a
geocode reply that has a first candidate: the row is appended, the rejection of
`save` stays unhandled and nothing is sent. -/
theorem cacheMiss_fetch {env : Env} {db : Store} {q : String} {c : Candidate}
    {rest : List Candidate} (hw : env.writeFails = false) (hk : ¬ db.hasKey q)
    (hg : env.geocode (geocodeUrl env q) = .ok { results := c :: rest }) :
    cacheMiss env q (Sys.init db)
      = { store := { db with
                     rows := db.rows ++ [{ id := db.nextId, search_query := q,
                                           formatted_query := c.formatted_address,
                                           latitude := c.lat, longitude := c.lng }],
                     nextId := db.nextId + 1 },
          response := none,
          providerCalls := [geocodeUrl env q],
          unhandled := [.typeError] } := by
  simp [cacheMiss, hg, Location.new, Location.save, clientQuery, hw, any_key_eq_false hk,
    Sys.init]

/-- A select that returns nothing means the key is absent. -/
theorem not_hasKey_of_selectRows_nil {db : Store} {q : String} (h : selectRows db q = []) :
    ¬ db.hasKey q :=
  fun hk => selectRows_ne_nil hk h

/-! ## The claims -/

/-- Claim C1: when the store read of `getLocation` resolves with at least one
row, the response sent is status 200 with exactly the first row the store
returned. -/
theorem cache_hit_sends_first_row (env : Env) (db db1 : Store) (q : String)
    (result : QueryResult) (row : Row) (rest : List Row)
    (hq : clientQuery env db (.selectBySearchQuery q) = (db1, .ok result))
    (hrows : result.rows = row :: rest) :
    (getLocation env db { data := q }).response
      = some { status := 200, body := .row row } := by
  unfold clientQuery at hq
  by_cases hf : env.readFails = true
  · simp [hf] at hq
  · simp only [hf, Bool.false_eq_true, if_false, Prod.mk.injEq, Except.ok.injEq] at hq
    obtain ⟨-, hres⟩ := hq
    have hsel : selectRows db q = row :: rest := by
      rw [← hrows, ← hres]
    rw [@getLocation_hit env db { data := q } row rest (by simpa using hf) hsel]

/-- Witness of C1 on the table holding the scenario row. -/
theorem cache_hit_sends_first_row_witness :
    (getLocation envOk amphitheatreStore amphitheatreRequest).response
      = some { status := 200, body := .row amphitheatreRow } :=
  cache_hit_sends_first_row envOk amphitheatreStore amphitheatreStore
    "1600 Amphitheatre Parkway" { rows := [amphitheatreRow], rowCount := 1 } amphitheatreRow []
    rfl rfl

/-- Claim C2: when the store already holds a record for the query,
`getLocation` issues no geocode request. -/
theorem cache_hit_no_provider_call (env : Env) (db : Store) (req : Request)
    (h : db.hasKey req.data) :
    (getLocation env db req).providerCalls = [] := by
  by_cases hf : env.readFails = true
  · rw [getLocation_readFails db req hf]; rfl
  · have hne := selectRows_ne_nil h
    obtain ⟨row, rest, hsel⟩ := List.exists_cons_of_ne_nil hne
    rw [getLocation_hit (by simpa using hf) hsel]; rfl

/-- Witness of C2 on the table holding the scenario row. -/
theorem cache_hit_no_provider_call_witness :
    amphitheatreStore.hasKey amphitheatreRequest.data
      ∧ (getLocation envOk amphitheatreStore amphitheatreRequest).providerCalls = [] :=
  ⟨by decide, cache_hit_no_provider_call envOk amphitheatreStore amphitheatreRequest (by decide)⟩

/-- Claim C3, the code at the scenario: on the empty table the record is
inserted, but the promise of `save` rejects with a `TypeError` that nobody
handles, and no response is sent. -/
theorem miss_scenario_sends_nothing :
    getLocation envOk emptyStore amphitheatreRequest
      = { store := amphitheatreStore,
          response := none,
          providerCalls := [geocodeUrl envOk "1600 Amphitheatre Parkway"],
          unhandled := [.typeError] } := by
  decide

/-- Claim C4, the code at a duplicate insert: the existing row stays, and the
promise of `save` rejects with a `TypeError` instead of returning the record. -/
theorem duplicate_save_rejects :
    Location.save envOk amphitheatreStore otherLocation
      = (amphitheatreStore, .error .typeError) := by
  rfl

/-- Claim C5 as stated fails: with a geocode service that is down, two requests
in sequence on the empty table issue two geocode requests. -/
theorem twice_provider_down_calls_twice :
    ((getLocationTwice envProviderDown envProviderDown emptyStore amphitheatreRequest).1.providerCalls
      ++ (getLocationTwice envProviderDown envProviderDown emptyStore
            amphitheatreRequest).2.providerCalls).length = 2
    ∧ ¬ ((getLocationTwice envProviderDown envProviderDown emptyStore
            amphitheatreRequest).1.response
          = (getLocationTwice envProviderDown envProviderDown emptyStore
              amphitheatreRequest).2.response
        ∧ ((getLocationTwice envProviderDown envProviderDown emptyStore
              amphitheatreRequest).1.providerCalls
            ++ (getLocationTwice envProviderDown envProviderDown emptyStore
              amphitheatreRequest).2.providerCalls).length ≤ 1) := by
  decide

/-- Claim C5 as amended: two requests in sequence, the store reads of both
succeeding.  When the store holds a record for the query, both send the same
response, a stored row with that key, and no geocode request is issued.  When
it holds none, the geocode service answers the first request with a first
candidate `c` and the store write succeeds, exactly one geocode request is
issued across the two and the second request is a hit on the row built from
`c`.  When it holds none and the first geocode request is rejected or its
reply has no candidate, the first request leaves the store as it was, and each
of the two requests issues its own geocode request. -/
theorem twice_hit_or_fetch_once (env1 env2 : Env) (db : Store) (req : Request)
    (hr1 : env1.readFails = false) (hr2 : env2.readFails = false) :
    (db.hasKey req.data →
        (getLocationTwice env1 env2 db req).1.response
          = (getLocationTwice env1 env2 db req).2.response
        ∧ (∃ row ∈ db.rows, row.search_query = req.data ∧
            (getLocationTwice env1 env2 db req).1.response
              = some { status := 200, body := .row row })
        ∧ (getLocationTwice env1 env2 db req).1.providerCalls
            ++ (getLocationTwice env1 env2 db req).2.providerCalls = [])
    ∧ (¬ db.hasKey req.data → env1.writeFails = false →
        ∀ (c : Candidate) (rest : List Candidate),
          env1.geocode (geocodeUrl env1 req.data) = .ok { results := c :: rest } →
          (getLocationTwice env1 env2 db req).1.providerCalls
              ++ (getLocationTwice env1 env2 db req).2.providerCalls
            = [geocodeUrl env1 req.data]
          ∧ (getLocationTwice env1 env2 db req).2.response
              = some { status := 200,
                       body := .row { id := db.nextId, search_query := req.data,
                                      formatted_query := c.formatted_address,
                                      latitude := c.lat, longitude := c.lng } })
    ∧ (¬ db.hasKey req.data →
        ((∃ e, env1.geocode (geocodeUrl env1 req.data) = .error e)
          ∨ env1.geocode (geocodeUrl env1 req.data) = .ok { results := [] }) →
        (getLocationTwice env1 env2 db req).1.store = db
        ∧ (getLocationTwice env1 env2 db req).1.providerCalls
              ++ (getLocationTwice env1 env2 db req).2.providerCalls
            = [geocodeUrl env1 req.data, geocodeUrl env2 req.data]) := by
  unfold getLocationTwice
  dsimp only
  refine ⟨?_, ?_, ?_⟩
  · intro hk
    obtain ⟨row, tail, hsel⟩ := List.exists_cons_of_ne_nil (selectRows_ne_nil hk)
    have hmem : row ∈ selectRows db req.data := by rw [hsel]; exact List.mem_cons_self _ _
    have hrow : row ∈ db.rows := by
      unfold selectRows at hmem
      exact (List.mem_filter.mp hmem).1
    rw [getLocation_hit hr1 hsel]
    dsimp only [Sys.init]
    rw [getLocation_hit hr2 hsel]
    exact ⟨rfl, ⟨row, hrow, selectRows_key hmem, rfl⟩, rfl⟩
  · intro hk hw c rest hg
    rw [getLocation_miss hr1 (selectRows_eq_nil hk), cacheMiss_fetch hw hk hg]
    dsimp only
    have hsel := selectRows_append_fresh
      (r := { id := db.nextId, search_query := req.data,
              formatted_query := c.formatted_address, latitude := c.lat, longitude := c.lng })
      (db.nextId + 1) hk
    rw [getLocation_hit hr2 hsel]
    exact ⟨rfl, rfl⟩
  · intro hk hp
    rw [getLocation_miss hr1 (selectRows_eq_nil hk)]
    have hfirst : cacheMiss env1 req.data (Sys.init db)
        = { Sys.init db with providerCalls := [geocodeUrl env1 req.data] } := by
      rcases hp with ⟨e, he⟩ | he
      · simp [cacheMiss, he, handleError, Sys.init]
      · simp [cacheMiss, he, Location.new, handleError, Sys.init]
    rw [hfirst]
    dsimp only [Sys.init]
    rw [getLocation_miss hr2 (selectRows_eq_nil hk), cacheMiss_providerCalls]
    exact ⟨rfl, rfl⟩

/-- Witness of the amended C5, one run for each of its three cases: a hit on
the table holding the scenario row, a fetch on the empty table, and on the
empty table a rejected geocode request followed by a second geocode request. -/
theorem twice_hit_or_fetch_once_witness :
    ((getLocationTwice envOk envOk amphitheatreStore amphitheatreRequest).1.response
          = (getLocationTwice envOk envOk amphitheatreStore amphitheatreRequest).2.response
        ∧ (∃ row ∈ amphitheatreStore.rows, row.search_query = amphitheatreRequest.data ∧
            (getLocationTwice envOk envOk amphitheatreStore amphitheatreRequest).1.response
              = some { status := 200, body := .row row })
        ∧ (getLocationTwice envOk envOk amphitheatreStore amphitheatreRequest).1.providerCalls
            ++ (getLocationTwice envOk envOk amphitheatreStore
                  amphitheatreRequest).2.providerCalls = [])
    ∧ ((getLocationTwice envOk envOk emptyStore amphitheatreRequest).1.providerCalls
            ++ (getLocationTwice envOk envOk emptyStore amphitheatreRequest).2.providerCalls
          = [geocodeUrl envOk amphitheatreRequest.data]
        ∧ (getLocationTwice envOk envOk emptyStore amphitheatreRequest).2.response
            = some { status := 200,
                     body := .row { id := emptyStore.nextId,
                                    search_query := amphitheatreRequest.data,
                                    formatted_query := "1600 Amphitheatre Pkwy, Mountain View, CA",
                                    latitude := { mantissa := 37422, scale := 3 },
                                    longitude := { mantissa := -122084, scale := 3 } } })
    ∧ ((getLocationTwice envProviderDown envOk emptyStore amphitheatreRequest).1.store
          = emptyStore
        ∧ (getLocationTwice envProviderDown envOk emptyStore amphitheatreRequest).1.providerCalls
            ++ (getLocationTwice envProviderDown envOk emptyStore
                  amphitheatreRequest).2.providerCalls
          = [geocodeUrl envProviderDown amphitheatreRequest.data,
             geocodeUrl envOk amphitheatreRequest.data])
    ∧ ((getLocationTwice envNoCandidate envNoCandidate emptyStore amphitheatreRequest).1.store
          = emptyStore
        ∧ (getLocationTwice envNoCandidate envNoCandidate emptyStore
              amphitheatreRequest).1.providerCalls
            ++ (getLocationTwice envNoCandidate envNoCandidate emptyStore
                  amphitheatreRequest).2.providerCalls
          = [geocodeUrl envNoCandidate amphitheatreRequest.data,
             geocodeUrl envNoCandidate amphitheatreRequest.data]) :=
  ⟨(twice_hit_or_fetch_once envOk envOk amphitheatreStore amphitheatreRequest rfl rfl).1
      (by decide),
    (twice_hit_or_fetch_once envOk envOk emptyStore amphitheatreRequest rfl rfl).2.1
      (by decide) rfl
      { formatted_address := "1600 Amphitheatre Pkwy, Mountain View, CA",
        lat := { mantissa := 37422, scale := 3 }, lng := { mantissa := -122084, scale := 3 } }
      [] rfl,
    (twice_hit_or_fetch_once envProviderDown envOk emptyStore amphitheatreRequest rfl rfl).2.2
      (by decide) (Or.inl ⟨.httpError, rfl⟩),
    (twice_hit_or_fetch_once envNoCandidate envNoCandidate emptyStore amphitheatreRequest
      rfl rfl).2.2 (by decide) (Or.inr rfl)⟩

/-- Claim C6 as stated fails: on a table that already holds a row for the key,
the lookup after `save` returns the older row, whose three fields differ from
the saved record's. -/
theorem round_trip_returns_older_row :
    (getLocation envOk (Location.save envOk amphitheatreStore otherLocation).1
        { data := otherLocation.search_query }).response
      = some { status := 200, body := .row amphitheatreRow }
    ∧ amphitheatreRow.formatted_query ≠ otherLocation.formatted_query
    ∧ amphitheatreRow.latitude ≠ otherLocation.latitude
    ∧ amphitheatreRow.longitude ≠ otherLocation.longitude := by
  decide

/-- Claim C6 as amended: on a store that holds no record for the key of `r`,
with a working store, `Location.lookupLocation` after `save` is a cache hit
whose only row carries the key, `formatted_query`, `latitude` and `longitude`
of `r`. -/
theorem round_trip_fresh_key (env : Env) (db : Store) (r : Location) (location : Handler)
    (hr : env.readFails = false) (hw : env.writeFails = false)
    (hk : ¬ db.hasKey r.search_query) (hq : location.query = r.search_query) :
    Location.lookupLocation env location (Sys.init (Location.save env db r).1)
      = location.cacheHit
          { rows := [{ id := db.nextId, search_query := r.search_query,
                       formatted_query := r.formatted_query,
                       latitude := r.latitude, longitude := r.longitude }],
            rowCount := 1 }
          (Sys.init (Location.save env db r).1) := by
  rw [save_store_fresh r hw hk]
  have hsel := selectRows_append_fresh
    (r := { id := db.nextId, search_query := r.search_query,
            formatted_query := r.formatted_query, latitude := r.latitude,
            longitude := r.longitude })
    (db.nextId + 1) hk
  dsimp only at hsel
  simp [Location.lookupLocation, clientQuery, hr, hq, hsel, Sys.init]

/-- Witness of the amended C6 on the empty table, with the callbacks of
`getLocation`. -/
theorem round_trip_fresh_key_witness :
    Location.lookupLocation envOk
        { query := "1600 Amphitheatre Parkway", cacheHit := cacheHit,
          cacheMiss := cacheMiss envOk "1600 Amphitheatre Parkway" }
        (Sys.init (Location.save envOk emptyStore otherLocation).1)
      = cacheHit
          { rows := [{ id := emptyStore.nextId, search_query := otherLocation.search_query,
                       formatted_query := otherLocation.formatted_query,
                       latitude := otherLocation.latitude,
                       longitude := otherLocation.longitude }],
            rowCount := 1 }
          (Sys.init (Location.save envOk emptyStore otherLocation).1) :=
  round_trip_fresh_key envOk emptyStore otherLocation
    { query := "1600 Amphitheatre Parkway", cacheHit := cacheHit,
      cacheMiss := cacheMiss envOk "1600 Amphitheatre Parkway" }
    rfl rfl (by decide) rfl

/-- Claim C7, the code at the four failures: a rejected store read, a rejected
geocode request, an empty candidate list and a rejected store write each end
the request without any response; no status 500 is sent. -/
theorem failures_send_nothing :
    (getLocation envReadDown amphitheatreStore amphitheatreRequest).response = none
    ∧ (getLocation envProviderDown emptyStore amphitheatreRequest).response = none
    ∧ (getLocation envNoCandidate emptyStore amphitheatreRequest).response = none
    ∧ (getLocation envWriteDown emptyStore amphitheatreRequest).response = none := by
  decide

/-- Claim C8: when the store holds at most one record per `search_query`
before `getLocation`, it still does afterwards, whatever the store and the
geocode service do. -/
theorem getLocation_preserves_uniqueKeys (env : Env) (db : Store) (req : Request)
    (h : db.UniqueKeys) : (getLocation env db req).store.UniqueKeys := by
  by_cases hf : env.readFails = true
  · rw [getLocation_readFails db req hf]; exact h
  · have hf0 : env.readFails = false := by simpa using hf
    cases hsel : selectRows db req.data with
    | cons row rest => rw [getLocation_hit hf0 hsel]; exact h
    | nil =>
      rw [getLocation_miss hf0 hsel]
      have hk := not_hasKey_of_selectRows_nil hsel
      rcases cacheMiss_store env req.data (Sys.init db) with hs | ⟨r, hr, hs⟩
      · rw [hs]; exact h
      · rw [hs]
        unfold Store.UniqueKeys at h ⊢
        simp only [Sys.init, List.map_append, List.map_cons, List.map_nil]
        rw [List.nodup_append]
        refine ⟨h, List.nodup_singleton _, ?_⟩
        intro a ha hb
        rw [List.mem_singleton] at hb
        rw [List.mem_map] at ha
        obtain ⟨r0, hr0, e0⟩ := ha
        exact hk ⟨r0, hr0, by rw [e0, hb, hr]⟩

/-- Witness of C8 on the table holding the scenario row, asked for a new key. -/
theorem getLocation_preserves_uniqueKeys_witness :
    amphitheatreStore.UniqueKeys
      ∧ (getLocation envOk amphitheatreStore { data := "Seattle" }).store.UniqueKeys :=
  ⟨by decide,
    getLocation_preserves_uniqueKeys envOk amphitheatreStore { data := "Seattle" } (by decide)⟩

/-- Claim C9: on a miss, when the geocode request is rejected or its reply has
no candidate, the store after `getLocation` is the store before it. -/
theorem failed_miss_leaves_store (env : Env) (db : Store) (q : String)
    (hk : ¬ db.hasKey q)
    (hp : (∃ e, env.geocode (geocodeUrl env q) = .error e)
      ∨ env.geocode (geocodeUrl env q) = .ok { results := [] }) :
    (getLocation env db { data := q }).store = db := by
  by_cases hf : env.readFails = true
  · rw [getLocation_readFails db _ hf]; rfl
  · have hf0 : env.readFails = false := by simpa using hf
    rw [@getLocation_miss env db { data := q } hf0 (selectRows_eq_nil hk)]
    rcases hp with ⟨e, he⟩ | he
    · simp [cacheMiss, he, handleError, Sys.init]
    · simp [cacheMiss, he, Location.new, handleError, Sys.init]

/-- Witness of C9 with a geocode service that is down. -/
theorem failed_miss_leaves_store_witness :
    (getLocation envProviderDown amphitheatreStore { data := "Seattle" }).store
      = amphitheatreStore :=
  failed_miss_leaves_store envProviderDown amphitheatreStore "Seattle" (by decide)
    (Or.inl ⟨.httpError, rfl⟩)

/-- Claim C10: on a reply with a first candidate `c`, the constructor yields
the record with the raw query, the address and the coordinates of `c`; the
later candidates do not change it. -/
theorem location_new_first_candidate (q : String) (now : Nat) (c : Candidate)
    (rest : List Candidate) :
    Location.new q { results := c :: rest } now
      = .ok { tableName := "locations", search_query := q,
              formatted_query := c.formatted_address, latitude := c.lat,
              longitude := c.lng, created_at := now, id := none }
    ∧ ∀ others : List Candidate,
        Location.new q { results := c :: others } now
          = Location.new q { results := c :: rest } now :=
  ⟨rfl, fun _ => rfl⟩

end Lab07
